import Mathlib

/-!
# A shallow embedding of the LC-3 virtual machine (`src/lc3-vm.c`)

The C program is a straight-line interpreter for the LC-3 teaching
architecture: a word-addressed memory array, a ten-slot register array,
a fetch/decode/execute loop, and six trap routines for character I/O.

Modelling conventions used throughout:

* machine words (`uint16_t`) are `Nat`s; every store into a `uint16_t`
  location truncates with `% 65536`, mirroring C's unsigned conversion;
* the memory array is declared `uint16_t memory[UINT16_MAX]` in the C
  source, i.e. it has 65535 elements (indices `0 .. 65534`).  An access
  at index 65535 is out of bounds for the declared array, so the memory
  accessors return `Option` results, `none` standing for the undefined
  behaviour of an out-of-bounds array access;
* the register array `uint16_t reg[10]` is modelled as a total function
  `Nat → Nat`: every register index in the program is produced by a
  `&&& 0x7` mask or is one of the constants 8 (PC) and 9 (COND), hence
  always in bounds;
* the process' standard input is modelled as the list of bytes pending
  on the stream (`check_key`, a zero-timeout `select(2)`, is "is that
  list nonempty"; `getchar()` takes its head, or reports end of input);
  standard output is the list of bytes written so far;
* `abort()` (reached for the two unassigned opcodes) terminates the
  process; it is modelled as a distinguished outcome carrying the
  machine state at the moment of the call.
-/

namespace LC3

/-- `uint16_t memory[UINT16_MAX]`: the element count of the declared C
memory array.  `UINT16_MAX` is 65535, so the valid indices are
`0 .. 65534` and index 65535 is out of bounds — even though the
adjacent comment in the source says "LC-3 has 65,536 memory
locations". -/
def MEMORY_LEN : Nat := 65535

/-! Register indices (`enum { R_R0 = 0, ... }`). -/

def R_R0 : Nat := 0
def R_R7 : Nat := 7
def R_PC : Nat := 8
def R_COND : Nat := 9

/-! Opcodes (`enum { OP_BR = 0, ... }`). -/

def OP_BR : Nat := 0
def OP_ADD : Nat := 1
def OP_LD : Nat := 2
def OP_ST : Nat := 3
def OP_JSR : Nat := 4
def OP_AND : Nat := 5
def OP_LDR : Nat := 6
def OP_STR : Nat := 7
def OP_RTI : Nat := 8
def OP_NOT : Nat := 9
def OP_LDI : Nat := 10
def OP_STI : Nat := 11
def OP_JMP : Nat := 12
def OP_RES : Nat := 13
def OP_LEA : Nat := 14
def OP_TRAP : Nat := 15

/-! Condition flags (`enum { FL_POS = 1 << 0, ... }`). -/

def FL_POS : Nat := 1
def FL_ZRO : Nat := 2
def FL_NEG : Nat := 4

/-! Memory mapped registers. -/

def MR_KBSR : Nat := 0xFE00
def MR_KBDR : Nat := 0xFE02

/-! Trap codes. -/

def TRAP_GETC : Nat := 0x20
def TRAP_OUT : Nat := 0x21
def TRAP_PUTS : Nat := 0x22
def TRAP_IN : Nat := 0x23
def TRAP_PUTSP : Nat := 0x24
def TRAP_HALT : Nat := 0x25

/-- The state of the interpreter process: the two global arrays
(`memory`, `reg`), the pending standard-input bytes, the bytes written
to standard output, and the `running` flag of the main loop. -/
structure Machine where
  memory : Nat → Nat
  reg : Nat → Nat
  input : List Nat
  output : List Nat
  running : Bool

/-- Store into one cell of the `uint16_t` memory array (the C
assignment `memory[a] = v` truncates `v` to 16 bits). -/
def memSet (m : Nat → Nat) (a v : Nat) : Nat → Nat :=
  fun i => if i = a then v % 65536 else m i

/-- Store into one slot of the `uint16_t reg[]` array. -/
def setReg (st : Machine) (r v : Nat) : Machine :=
  { st with reg := fun i => if i = r then v % 65536 else st.reg i }

/-- `sign_extend` from the source: if bit `bit_count - 1` of `x` is
set, OR in `0xFFFF << bit_count` (the result is truncated to 16 bits
by the `uint16_t` assignment), otherwise return `x` unchanged. -/
def sign_extend (x : Nat) (bit_count : Nat) : Nat :=
  if (x >>> (bit_count - 1)) &&& 1 ≠ 0 then (x ||| (0xFFFF <<< bit_count)) % 65536
  else x

/-- `swap16`: exchange the two bytes of a 16-bit word (the shifts are
performed in `int` and truncated by the `uint16_t` return). -/
def swap16 (x : Nat) : Nat := ((x <<< 8) ||| (x >>> 8)) % 65536

/-- `update_flags(r)`: derive the COND register from the current value
of register `r`.  Zero gives `FL_ZRO`, a set bit 15 gives `FL_NEG`,
anything else gives `FL_POS`. -/
def update_flags (st : Machine) (r : Nat) : Machine :=
  if st.reg r = 0 then setReg st R_COND FL_ZRO
  else if st.reg r >>> 15 ≠ 0 then setReg st R_COND FL_NEG
  else setReg st R_COND FL_POS

/-- `check_key()`: a zero-timeout `select` on standard input — is at
least one byte pending? -/
def check_key (st : Machine) : Bool := !st.input.isEmpty

/-- `mem_write(address, val)`: `memory[address] = val`.  The address
argument is a `uint16_t` (truncated at the call boundary); an index
beyond the declared array is an out-of-bounds store, `none`. -/
def mem_write (st : Machine) (address v : Nat) : Option Machine :=
  let a := address % 65536
  if a < MEMORY_LEN then some { st with memory := memSet st.memory a v } else none

/-- `mem_read(address)`: when the address is the keyboard status
register, first poll standard input — if a byte is pending set the
status cell to `1 << 15` and move the byte into the data cell,
otherwise clear the status cell — then return `memory[address]`.
An index beyond the declared array is an out-of-bounds load, `none`. -/
def mem_read (st : Machine) (address : Nat) : Option (Machine × Nat) :=
  let a := address % 65536
  let st' :=
    if a = MR_KBSR then
      match st.input with
      | b :: rest =>
          { st with
            memory := memSet (memSet st.memory MR_KBSR (1 <<< 15)) MR_KBDR b,
            input := rest }
      | [] => { st with memory := memSet st.memory MR_KBSR 0 }
    else st
  if a < MEMORY_LEN then some (st', st'.memory a) else none

/-- Outcome of one iteration of the main loop: a successor state, a
call to `abort()` in the state it was reached in, or undefined
behaviour from an out-of-bounds access to the memory array. -/
inductive Outcome where
  | ok (st : Machine)
  | abort (st : Machine)
  | ub

/-- `case OP_ADD`: register or sign-extended-immediate addition into
`DR`, then `update_flags`. -/
def execADD (st : Machine) (instr : Nat) : Machine :=
  let r0 := (instr >>> 9) &&& 0x7
  let r1 := (instr >>> 6) &&& 0x7
  let imm_flag := (instr >>> 5) &&& 0x1
  let st' :=
    if imm_flag ≠ 0 then setReg st r0 (st.reg r1 + sign_extend (instr &&& 0x1F) 5)
    else setReg st r0 (st.reg r1 + st.reg (instr &&& 0x7))
  update_flags st' r0

/-- `case OP_AND`: like ADD with bitwise AND. -/
def execAND (st : Machine) (instr : Nat) : Machine :=
  let r0 := (instr >>> 9) &&& 0x7
  let r1 := (instr >>> 6) &&& 0x7
  let imm_flag := (instr >>> 5) &&& 0x1
  let st' :=
    if imm_flag ≠ 0 then setReg st r0 (st.reg r1 &&& sign_extend (instr &&& 0x1F) 5)
    else setReg st r0 (st.reg r1 &&& st.reg (instr &&& 0x7))
  update_flags st' r0

/-- `case OP_NOT`: bitwise complement (`~` on a 16-bit value is XOR
with `0xFFFF`), then `update_flags`. -/
def execNOT (st : Machine) (instr : Nat) : Machine :=
  let r0 := (instr >>> 9) &&& 0x7
  let r1 := (instr >>> 6) &&& 0x7
  update_flags (setReg st r0 (st.reg r1 ^^^ 0xFFFF)) r0

/-- `case OP_BR`: add the sign-extended offset to PC when the tested
condition bits intersect COND. -/
def execBR (st : Machine) (instr : Nat) : Machine :=
  let pc_offset := sign_extend (instr &&& 0x1FF) 9
  let cond := (instr >>> 9) &&& 0x7
  if cond &&& st.reg R_COND ≠ 0 then setReg st R_PC (st.reg R_PC + pc_offset) else st

/-- `case OP_JMP` (also RET): PC from a base register. -/
def execJMP (st : Machine) (instr : Nat) : Machine :=
  let r1 := (instr >>> 6) &&& 0x7
  setReg st R_PC (st.reg r1)

/-- `case OP_JSR`: save the (already incremented) PC in R7, then jump
PC-relative (bit 11 set) or to a base register. -/
def execJSR (st : Machine) (instr : Nat) : Machine :=
  let r1 := (instr >>> 6) &&& 0x7
  let pc_offset_long := sign_extend (instr &&& 0x7FF) 11
  let flag := (instr >>> 11) &&& 1
  let st' := setReg st R_R7 (st.reg R_PC)
  if flag ≠ 0 then setReg st' R_PC (st'.reg R_PC + pc_offset_long)
  else setReg st' R_PC (st'.reg r1)

/-- `case OP_LD`: load PC-relative, then `update_flags`. -/
def execLD (st : Machine) (instr : Nat) : Outcome :=
  let r0 := (instr >>> 9) &&& 0x7
  let pc_offset := sign_extend (instr &&& 0x1FF) 9
  match mem_read st (st.reg R_PC + pc_offset) with
  | none => .ub
  | some (st', v) => .ok (update_flags (setReg st' r0 v) r0)

/-- `case OP_LDI`: double indirection through two `mem_read`s. -/
def execLDI (st : Machine) (instr : Nat) : Outcome :=
  let r0 := (instr >>> 9) &&& 0x7
  let pc_offset := sign_extend (instr &&& 0x1FF) 9
  match mem_read st (st.reg R_PC + pc_offset) with
  | none => .ub
  | some (st1, a) =>
    match mem_read st1 a with
    | none => .ub
    | some (st2, v) => .ok (update_flags (setReg st2 r0 v) r0)

/-- `case OP_LDR`: load base-plus-offset, then `update_flags`. -/
def execLDR (st : Machine) (instr : Nat) : Outcome :=
  let r0 := (instr >>> 9) &&& 0x7
  let r1 := (instr >>> 6) &&& 0x7
  let pc_offset_short := sign_extend (instr &&& 0x3F) 6
  match mem_read st (st.reg r1 + pc_offset_short) with
  | none => .ub
  | some (st', v) => .ok (update_flags (setReg st' r0 v) r0)

/-- `case OP_LEA`: the effective address itself, no memory access,
then `update_flags`. -/
def execLEA (st : Machine) (instr : Nat) : Machine :=
  let r0 := (instr >>> 9) &&& 0x7
  let pc_offset := sign_extend (instr &&& 0x1FF) 9
  update_flags (setReg st r0 (st.reg R_PC + pc_offset)) r0

/-- `case OP_ST`: store PC-relative. -/
def execST (st : Machine) (instr : Nat) : Outcome :=
  let r0 := (instr >>> 9) &&& 0x7
  let pc_offset := sign_extend (instr &&& 0x1FF) 9
  match mem_write st (st.reg R_PC + pc_offset) (st.reg r0) with
  | none => .ub
  | some st' => .ok st'

/-- `case OP_STI`: read the target address PC-relative, then store
through it. -/
def execSTI (st : Machine) (instr : Nat) : Outcome :=
  let r0 := (instr >>> 9) &&& 0x7
  let pc_offset := sign_extend (instr &&& 0x1FF) 9
  match mem_read st (st.reg R_PC + pc_offset) with
  | none => .ub
  | some (st1, a) =>
    match mem_write st1 a (st1.reg r0) with
    | none => .ub
    | some st2 => .ok st2

/-- `case OP_STR`: store base-plus-offset. -/
def execSTR (st : Machine) (instr : Nat) : Outcome :=
  let r0 := (instr >>> 9) &&& 0x7
  let r1 := (instr >>> 6) &&& 0x7
  let pc_offset_short := sign_extend (instr &&& 0x3F) 6
  match mem_write st (st.reg r1 + pc_offset_short) (st.reg r0) with
  | none => .ub
  | some st' => .ok st'

/-- The `TRAP_PUTS` loop: walk memory from `i` emitting the low byte
of each word until a zero word; walking off the end of the declared
array is undefined behaviour (`none`).  `fuel` bounds the recursion;
started at `MEMORY_LEN` it cannot run out before the bounds check
fires. -/
def scan_string (mem : Nat → Nat) (i : Nat) (fuel : Nat) : Option (List Nat) :=
  if MEMORY_LEN ≤ i then none
  else if mem i = 0 then some []
  else
    match fuel with
    | 0 => none
    | fuel + 1 => (scan_string mem (i + 1) fuel).map (fun l => (mem i &&& 0xFF) :: l)

/-- The `TRAP_PUTSP` loop: two packed characters per word, the high
byte only when nonzero. -/
def scan_string2 (mem : Nat → Nat) (i : Nat) (fuel : Nat) : Option (List Nat) :=
  if MEMORY_LEN ≤ i then none
  else if mem i = 0 then some []
  else
    match fuel with
    | 0 => none
    | fuel + 1 =>
      (scan_string2 mem (i + 1) fuel).map
        (fun l =>
          if mem i >>> 8 ≠ 0 then (mem i &&& 0xFF) :: (mem i >>> 8) :: l
          else (mem i &&& 0xFF) :: l)

/-- The bytes of the `printf("Enter a character: ")` prompt in
`TRAP_IN`. -/
def promptString : List Nat :=
  [69, 110, 116, 101, 114, 32, 97, 32, 99, 104, 97, 114, 97, 99, 116, 101, 114, 58, 32]

/-- The bytes written by `puts("HALT")` (with its trailing newline). -/
def haltMessage : List Nat := [72, 65, 76, 84, 10]

/-- `case OP_TRAP`, parameterised by the already-extracted vector
field (`uint16_t trap_code = instr & 0xFF`): `reg[R_R7] = reg[R_PC]`
happens before the vector dispatch, for every vector; the inner
`switch (trap_code)` has cases for the six known codes and no
`default`, so any other vector falls through with no further effect.
`getchar()` with no pending input is end of input (EOF is `-1`; as
`uint16_t` it is `0xFFFF`).  In `TRAP_IN` the byte passes through a
(signed) `char` before widening to `uint16_t`. -/
def execTRAPAt (st0 : Machine) (trap_code : Nat) : Outcome :=
  let st := setReg st0 R_R7 (st0.reg R_PC)
  if trap_code = TRAP_GETC then
    match st.input with
    | b :: rest => .ok (setReg { st with input := rest } R_R0 b)
    | [] => .ok (setReg st R_R0 0xFFFF)
  else if trap_code = TRAP_OUT then
    .ok { st with output := st.output ++ [st.reg R_R0 &&& 0xFF] }
  else if trap_code = TRAP_PUTS then
    match scan_string st.memory (st.reg R_R0) MEMORY_LEN with
    | none => .ub
    | some cs => .ok { st with output := st.output ++ cs }
  else if trap_code = TRAP_IN then
    match st.input with
    | b :: rest =>
      .ok (setReg { st with input := rest, output := st.output ++ promptString ++ [b] }
            R_R0 (if b < 128 then b else 65280 + b))
    | [] => .ok (setReg { st with output := st.output ++ promptString ++ [255] } R_R0 0xFFFF)
  else if trap_code = TRAP_PUTSP then
    match scan_string2 st.memory (st.reg R_R0) MEMORY_LEN with
    | none => .ub
    | some cs => .ok { st with output := st.output ++ cs }
  else if trap_code = TRAP_HALT then
    .ok { st with output := st.output ++ haltMessage, running := false }
  else
    .ok st

/-- `case OP_TRAP`: extract the vector field and dispatch. -/
def execTRAP (st0 : Machine) (instr : Nat) : Outcome :=
  execTRAPAt st0 (instr &&& 0xFF)

/-- The decode `switch (op)`, parameterised by the already-extracted
opcode field (`uint16_t op = instr >> 12`): the twelve assigned
opcodes dispatch to their cases; `OP_RES`, `OP_RTI` and the (for
4-bit opcodes unreachable) `default` call `abort()`. -/
def execInstrAt (st : Machine) (instr : Nat) (op : Nat) : Outcome :=
  if op = OP_ADD then .ok (execADD st instr)
  else if op = OP_AND then .ok (execAND st instr)
  else if op = OP_NOT then .ok (execNOT st instr)
  else if op = OP_BR then .ok (execBR st instr)
  else if op = OP_JMP then .ok (execJMP st instr)
  else if op = OP_JSR then .ok (execJSR st instr)
  else if op = OP_LD then execLD st instr
  else if op = OP_LDI then execLDI st instr
  else if op = OP_LDR then execLDR st instr
  else if op = OP_LEA then .ok (execLEA st instr)
  else if op = OP_ST then execST st instr
  else if op = OP_STI then execSTI st instr
  else if op = OP_STR then execSTR st instr
  else if op = OP_TRAP then execTRAP st instr
  else .abort st

/-- Decode: extract the opcode field and dispatch. -/
def execInstr (st : Machine) (instr : Nat) : Outcome :=
  execInstrAt st instr (instr >>> 12)

/-- One iteration of `while (running)`:
`uint16_t instr = mem_read(reg[R_PC]++);` — the post-increment stores
`PC + 1` (wrapping) into the register array while `mem_read` receives
the old PC — then decode and execute. -/
def step (st : Machine) : Outcome :=
  let pc := st.reg R_PC
  let st1 := setReg st R_PC (pc + 1)
  match mem_read st1 pc with
  | none => .ub
  | some (st2, instr) => execInstr st2 instr

/-- The register file at the top of the loop: the global array is
zero-initialised, then `reg[R_PC] = PC_START` (0x3000). -/
def initRegs : Nat → Nat := fun i => if i = R_PC then 0x3000 else 0

/-- The machine state as the main loop is entered: memory as the image
loader left it, registers zero except PC, no output yet, `running`. -/
def initMachine (mem : Nat → Nat) (inp : List Nat) : Machine :=
  { memory := mem, reg := initRegs, input := inp, output := [], running := true }

/-- The global memory array before any image is loaded (C zero
initialisation of statics). -/
def zeroMem : Nat → Nat := fun _ => 0

/-- The states the main loop can reach from `st0`: the loop body runs
only while `running` is set. -/
inductive Reachable (st0 : Machine) : Machine → Prop where
  | refl : Reachable st0 st0
  | next {st st' : Machine} : Reachable st0 st → st.running = true →
      step st = Outcome.ok st' → Reachable st0 st'

/-- Which constructor an `Outcome` is: 0 for a successor state, 1 for
`abort()`, 2 for undefined behaviour. -/
def outcomeCase : Outcome → Nat
  | .ok _ => 0
  | .abort _ => 1
  | .ub => 2

/-- The memory cell `a` of the state carried by an outcome (0 when the
outcome is undefined behaviour). -/
def outcomeMemAt : Outcome → Nat → Nat
  | .ok st, a => st.memory a
  | .abort st, a => st.memory a
  | .ub, _ => 0

/-- The register `r` of the state carried by an outcome. -/
def outcomeRegAt : Outcome → Nat → Nat
  | .ok st, r => st.reg r
  | .abort st, r => st.reg r
  | .ub, _ => 0

/-- A concrete state used to exercise single instructions: empty
memory and registers, except PC = 0x1234. -/
def exState : Machine :=
  { memory := zeroMem, reg := fun i => if i = R_PC then 0x1234 else 0,
    input := [], output := [], running := true }

/-- A concrete state about to fetch from the keyboard status address,
with one byte (0x41, `A`) pending on standard input. -/
def kbFetchState : Machine :=
  { memory := zeroMem, reg := fun i => if i = R_PC then MR_KBSR else 0,
    input := [0x41], output := [], running := true }

/-- A concrete state for the JSR scenario: PC = 0x3000 and the word at
0x3000 is `0x4805`, i.e. JSR with bit 11 set and offset 5. -/
def jsrState : Machine := initMachine (fun a => if a = 0x3000 then 0x4805 else 0) []

/-- A concrete state about to fetch a word whose opcode field is the
unassigned `1000` (RTI) encoding: PC = 0x3000, word 0x8000 there. -/
def illState : Machine := initMachine (fun a => if a = 0x3000 then 0x8000 else 0) []

/-- A concrete state whose COND register already holds a proper flag
(`FL_ZRO`), with PC = 0x3000 over empty memory. -/
def condState : Machine :=
  { memory := zeroMem,
    reg := fun i => if i = R_COND then FL_ZRO else if i = R_PC then 0x3000 else 0,
    input := [], output := [], running := true }

/-- Write a list of words into consecutive memory cells starting at
`a` (the effect of the single `fread` into `memory + origin`). -/
def loadWords (mem : Nat → Nat) (a : Nat) : List Nat → (Nat → Nat)
  | [] => mem
  | w :: ws => loadWords (memSet mem a w) (a + 1) ws

/-- `read_image_file`: the first 16-bit word of the file is the origin
(byte-swapped from big-endian); `max_read = UINT16_MAX - origin` bounds
the single `fread` into `memory + origin`, and each word read is then
byte-swapped in place.  `origin_raw` and `ws` are the origin word and
the data words exactly as `fread` delivers them (native byte order). -/
def read_image_file (st : Machine) (origin_raw : Nat) (ws : List Nat) : Machine :=
  let origin := swap16 origin_raw
  let max_read := MEMORY_LEN - origin
  { st with memory := loadWords st.memory origin ((ws.take max_read).map swap16) }

/-! ## General lemmas about the embedding -/

theorem setReg_reg_of_ne {i r : Nat} (st : Machine) (v : Nat) (h : i ≠ r) :
    (setReg st r v).reg i = st.reg i := by
  simp [setReg, h]

theorem setReg_memory_eq (st : Machine) (r v : Nat) : (setReg st r v).memory = st.memory := rfl

theorem setReg_input_eq (st : Machine) (r v : Nat) : (setReg st r v).input = st.input := rfl

theorem setReg_output_eq (st : Machine) (r v : Nat) : (setReg st r v).output = st.output := rfl

theorem setReg_running_eq (st : Machine) (r v : Nat) : (setReg st r v).running = st.running := rfl

theorem mem_read_reg_eq {st : Machine} {a : Nat} {p : Machine × Nat}
    (h : mem_read st a = some p) : p.1.reg = st.reg := by
  simp only [mem_read] at h
  split at h
  · injection h with h'
    subst h'
    split
    · split <;> rfl
    · rfl
  · exact Option.noConfusion h

theorem mem_write_reg_eq {st : Machine} {a v : Nat} {st' : Machine}
    (h : mem_write st a v = some st') : st'.reg = st.reg := by
  simp only [mem_write] at h
  split at h
  · injection h with h'
    subst h'
    rfl
  · exact Option.noConfusion h

theorem update_flags_cond_cases (st : Machine) (r : Nat) :
    (update_flags st r).reg R_COND = FL_POS ∨ (update_flags st r).reg R_COND = FL_ZRO ∨
      (update_flags st r).reg R_COND = FL_NEG := by
  unfold update_flags
  split_ifs <;> simp [setReg, R_COND, FL_POS, FL_ZRO, FL_NEG]

/-! ## Dispatch equations

Specialisations of the decode `switch` and of the trap-vector
`switch` once the relevant code value is known; later case analyses
go through these small equations instead of re-unfolding the whole
dispatch chain each time. -/

theorem execInstr_at (st : Machine) (instr : Nat) {v : Nat} (hop : instr >>> 12 = v) :
    execInstr st instr = execInstrAt st instr v := by
  rw [← hop]
  rfl

theorem execTRAP_at (st : Machine) (instr : Nat) {v : Nat} (hc : instr &&& 0xFF = v) :
    execTRAP st instr = execTRAPAt st v := by
  rw [← hc]
  rfl

theorem execInstr_eq_add (st : Machine) (instr : Nat) (hop : instr >>> 12 = OP_ADD) :
    execInstr st instr = Outcome.ok (execADD st instr) :=
  execInstr_at st instr hop

theorem execInstr_eq_and (st : Machine) (instr : Nat) (hop : instr >>> 12 = OP_AND) :
    execInstr st instr = Outcome.ok (execAND st instr) :=
  execInstr_at st instr hop

theorem execInstr_eq_not (st : Machine) (instr : Nat) (hop : instr >>> 12 = OP_NOT) :
    execInstr st instr = Outcome.ok (execNOT st instr) :=
  execInstr_at st instr hop

theorem execInstr_eq_br (st : Machine) (instr : Nat) (hop : instr >>> 12 = OP_BR) :
    execInstr st instr = Outcome.ok (execBR st instr) :=
  execInstr_at st instr hop

theorem execInstr_eq_jmp (st : Machine) (instr : Nat) (hop : instr >>> 12 = OP_JMP) :
    execInstr st instr = Outcome.ok (execJMP st instr) :=
  execInstr_at st instr hop

theorem execInstr_eq_jsr (st : Machine) (instr : Nat) (hop : instr >>> 12 = OP_JSR) :
    execInstr st instr = Outcome.ok (execJSR st instr) :=
  execInstr_at st instr hop

theorem execInstr_eq_ld (st : Machine) (instr : Nat) (hop : instr >>> 12 = OP_LD) :
    execInstr st instr = execLD st instr :=
  execInstr_at st instr hop

theorem execInstr_eq_ldi (st : Machine) (instr : Nat) (hop : instr >>> 12 = OP_LDI) :
    execInstr st instr = execLDI st instr :=
  execInstr_at st instr hop

theorem execInstr_eq_ldr (st : Machine) (instr : Nat) (hop : instr >>> 12 = OP_LDR) :
    execInstr st instr = execLDR st instr :=
  execInstr_at st instr hop

theorem execInstr_eq_lea (st : Machine) (instr : Nat) (hop : instr >>> 12 = OP_LEA) :
    execInstr st instr = Outcome.ok (execLEA st instr) :=
  execInstr_at st instr hop

theorem execInstr_eq_st (st : Machine) (instr : Nat) (hop : instr >>> 12 = OP_ST) :
    execInstr st instr = execST st instr :=
  execInstr_at st instr hop

theorem execInstr_eq_sti (st : Machine) (instr : Nat) (hop : instr >>> 12 = OP_STI) :
    execInstr st instr = execSTI st instr :=
  execInstr_at st instr hop

theorem execInstr_eq_str (st : Machine) (instr : Nat) (hop : instr >>> 12 = OP_STR) :
    execInstr st instr = execSTR st instr :=
  execInstr_at st instr hop

theorem execInstr_eq_trap (st : Machine) (instr : Nat) (hop : instr >>> 12 = OP_TRAP) :
    execInstr st instr = execTRAP st instr :=
  execInstr_at st instr hop

theorem execInstr_eq_abort_unassigned (st : Machine) (instr : Nat)
    (hop : instr >>> 12 = OP_RTI ∨ instr >>> 12 = OP_RES) :
    execInstr st instr = Outcome.abort st := by
  rcases hop with h | h <;> exact execInstr_at st instr h

theorem execInstr_eq_abort_of_ne (st : Machine) (instr : Nat)
    (c1 : instr >>> 12 ≠ OP_ADD) (c2 : instr >>> 12 ≠ OP_AND) (c3 : instr >>> 12 ≠ OP_NOT)
    (c4 : instr >>> 12 ≠ OP_BR) (c5 : instr >>> 12 ≠ OP_JMP) (c6 : instr >>> 12 ≠ OP_JSR)
    (c7 : instr >>> 12 ≠ OP_LD) (c8 : instr >>> 12 ≠ OP_LDI) (c9 : instr >>> 12 ≠ OP_LDR)
    (c10 : instr >>> 12 ≠ OP_LEA) (c11 : instr >>> 12 ≠ OP_ST) (c12 : instr >>> 12 ≠ OP_STI)
    (c13 : instr >>> 12 ≠ OP_STR) (c14 : instr >>> 12 ≠ OP_TRAP) :
    execInstr st instr = Outcome.abort st := by
  show execInstrAt st instr (instr >>> 12) = Outcome.abort st
  simp only [execInstrAt]
  rw [if_neg c1, if_neg c2, if_neg c3, if_neg c4, if_neg c5, if_neg c6, if_neg c7,
      if_neg c8, if_neg c9, if_neg c10, if_neg c11, if_neg c12, if_neg c13, if_neg c14]

theorem execTRAP_eq_getc (st : Machine) (instr : Nat) (hc : instr &&& 0xFF = TRAP_GETC) :
    execTRAP st instr =
      (match st.input with
       | b :: rest =>
           Outcome.ok (setReg { setReg st R_R7 (st.reg R_PC) with input := rest } R_R0 b)
       | [] => Outcome.ok (setReg (setReg st R_R7 (st.reg R_PC)) R_R0 0xFFFF)) :=
  execTRAP_at st instr hc

theorem execTRAP_eq_out (st : Machine) (instr : Nat) (hc : instr &&& 0xFF = TRAP_OUT) :
    execTRAP st instr =
      Outcome.ok { setReg st R_R7 (st.reg R_PC) with
                   output := st.output ++ [st.reg R_R0 &&& 0xFF] } :=
  execTRAP_at st instr hc

theorem execTRAP_eq_puts (st : Machine) (instr : Nat) (hc : instr &&& 0xFF = TRAP_PUTS) :
    execTRAP st instr =
      (match scan_string st.memory (st.reg R_R0) MEMORY_LEN with
       | none => Outcome.ub
       | some cs => Outcome.ok { setReg st R_R7 (st.reg R_PC) with
                                 output := st.output ++ cs }) :=
  execTRAP_at st instr hc

theorem execTRAP_eq_in (st : Machine) (instr : Nat) (hc : instr &&& 0xFF = TRAP_IN) :
    execTRAP st instr =
      (match st.input with
       | b :: rest =>
           Outcome.ok (setReg { setReg st R_R7 (st.reg R_PC) with
                                input := rest,
                                output := st.output ++ promptString ++ [b] }
             R_R0 (if b < 128 then b else 65280 + b))
       | [] => Outcome.ok (setReg { setReg st R_R7 (st.reg R_PC) with
                                    output := st.output ++ promptString ++ [255] }
                 R_R0 0xFFFF)) :=
  execTRAP_at st instr hc

theorem execTRAP_eq_putsp (st : Machine) (instr : Nat) (hc : instr &&& 0xFF = TRAP_PUTSP) :
    execTRAP st instr =
      (match scan_string2 st.memory (st.reg R_R0) MEMORY_LEN with
       | none => Outcome.ub
       | some cs => Outcome.ok { setReg st R_R7 (st.reg R_PC) with
                                 output := st.output ++ cs }) :=
  execTRAP_at st instr hc

theorem execTRAP_eq_halt (st : Machine) (instr : Nat) (hc : instr &&& 0xFF = TRAP_HALT) :
    execTRAP st instr =
      Outcome.ok { setReg st R_R7 (st.reg R_PC) with
                   output := st.output ++ haltMessage, running := false } :=
  execTRAP_at st instr hc

theorem execTRAP_eq_unknown (st : Machine) (instr : Nat)
    (h1 : instr &&& 0xFF ≠ TRAP_GETC) (h2 : instr &&& 0xFF ≠ TRAP_OUT)
    (h3 : instr &&& 0xFF ≠ TRAP_PUTS) (h4 : instr &&& 0xFF ≠ TRAP_IN)
    (h5 : instr &&& 0xFF ≠ TRAP_PUTSP) (h6 : instr &&& 0xFF ≠ TRAP_HALT) :
    execTRAP st instr = Outcome.ok (setReg st R_R7 (st.reg R_PC)) := by
  show execTRAPAt st (instr &&& 0xFF) = Outcome.ok (setReg st R_R7 (st.reg R_PC))
  simp only [execTRAPAt]
  rw [if_neg h1, if_neg h2, if_neg h3, if_neg h4, if_neg h5, if_neg h6]

/-! ## C1: is every 16-bit address in bounds for the memory array? -/

/-- C1: the claim asserts that the memory is a fixed-size sequence of
65536 Words so that no 16-bit address is out of bounds and the
out-of-range branch of indexing is unreachable.  The declared array
`uint16_t memory[UINT16_MAX]` has only 65535 elements, so both
accessors hit the out-of-range branch at address 0xFFFF — a code bug,
as the comment beside the declaration itself says the LC-3 has 65,536
memory locations. -/
theorem C1_address_ffff_out_of_bounds :
    MEMORY_LEN = 65535 ∧ 0xFFFF < 65536 ∧
    mem_write (initMachine zeroMem []) 0xFFFF 1 = none ∧
    mem_read (initMachine zeroMem []) 0xFFFF = none :=
  ⟨rfl, by decide, rfl, rfl⟩

/-! ## C2: image loading and the last address -/

/-- C2: the claim asserts an image with origin `O` and `N` data words
is written to addresses `O, O+1, ...` truncated only where it would
overflow the 16-bit address space, and reads back byte-order
corrected.  A file with origin 0xFFFF and one data word does not
overflow the address space, yet `max_read = UINT16_MAX - origin = 0`
drops its word: address 0xFFFF still holds 0 after the load, not the
byte-swapped word. -/
theorem C2_image_load_drops_word_at_ffff :
    (read_image_file (initMachine zeroMem []) 0xFFFF [0x1234]).memory 0xFFFF = 0 ∧
    swap16 0x1234 = 0x3412 ∧
    (read_image_file (initMachine zeroMem []) 0xFFFF [0x1234]).memory 0xFFFF ≠ swap16 0x1234 :=
  ⟨rfl, rfl, by decide⟩

/-! ## C6: `mem_read` -/

/-- C6: on the keyboard-status address with a byte pending, `mem_read`
sets the status cell to 0x8000, moves the byte into the data cell, and
returns the updated status word — as the claim says.  But the claim's
"for every other address `a`, `mem_read(a)` returns the stored Word"
fails at `a = 0xFFFF`: the declared array has 65535 elements, so that
read is out of bounds (a code bug, same off-by-one as C1). -/
theorem C6_mem_read_keyboard_poll_and_oob :
    mem_read (initMachine zeroMem [0x41]) MR_KBSR =
      some ({ initMachine zeroMem [0x41] with
              memory := memSet (memSet zeroMem MR_KBSR (1 <<< 15)) MR_KBDR 0x41,
              input := [] }, 0x8000) ∧
    memSet (memSet zeroMem MR_KBSR (1 <<< 15)) MR_KBDR 0x41 MR_KBSR = 0x8000 ∧
    memSet (memSet zeroMem MR_KBSR (1 <<< 15)) MR_KBDR 0x41 MR_KBDR = 0x41 ∧
    mem_read (initMachine zeroMem []) 0xFFFF = none :=
  ⟨rfl, rfl, rfl, rfl⟩

/-! ## C7: `sign_extend` -/

theorem lor_shiftLeft_eq_add {n x : Nat} (m : Nat) (h : x < 2 ^ n) :
    x ||| (m <<< n) = m <<< n + x := by
  apply Nat.eq_of_testBit_eq
  intro i
  rw [Nat.testBit_lor, Nat.testBit_shiftLeft, Nat.shiftLeft_eq]
  rcases Nat.lt_or_ge i n with hi | hi
  · have hge : ¬ (i ≥ n) := Nat.not_le.mpr hi
    have hmod : (m * 2 ^ n + x) % 2 ^ n = x := by
      rw [Nat.mul_comm, Nat.mul_add_mod]
      exact Nat.mod_eq_of_lt h
    have hlow : (m * 2 ^ n + x).testBit i = ((m * 2 ^ n + x) % 2 ^ n).testBit i := by
      rw [Nat.testBit_mod_two_pow, decide_eq_true hi, Bool.true_and]
    rw [hlow, hmod, decide_eq_false hge, Bool.false_and, Bool.or_false]
  · have hx : x.testBit i = false :=
      Nat.testBit_eq_false_of_lt
        (Nat.lt_of_lt_of_le h (Nat.pow_le_pow_right (by decide) hi))
    have hdiv : (m * 2 ^ n + x) / 2 ^ i = m / 2 ^ (i - n) := by
      have hsplit : 2 ^ i = 2 ^ n * 2 ^ (i - n) := by
        rw [← Nat.pow_add, Nat.add_sub_cancel' hi]
      rw [hsplit, ← Nat.div_div_eq_div_mul, Nat.add_comm,
          Nat.add_mul_div_right _ _ (Nat.pos_pow_of_pos n (by decide)),
          Nat.div_eq_of_lt h, Nat.zero_add]
    rw [hx, Bool.false_or, decide_eq_true hi, Bool.true_and,
        Nat.testBit_to_div_mod, Nat.testBit_to_div_mod, hdiv]

theorem sign_extend_guard_iff {x k : Nat} :
    ((x >>> k) &&& 1 ≠ 0) ↔ Nat.testBit x k = true := by
  rw [Nat.and_one_is_mod, Nat.testBit_to_div_mod, decide_eq_true_eq,
      ← Nat.shiftRight_eq_div_pow]
  rcases Nat.mod_two_eq_zero_or_one (x >>> k) with h | h <;> simp [h]

/-- C7 counterexample: the claim quantifies over every 16-bit `x`.
Take `n = 1` and `x = 3`: bit 0 of 3 is set, and the claim then
demands `signExtend(3,1) = 3 - 2^1` with 16-bit wraparound, i.e. 1;
but the code only ORs the mask `0xFFFF << 1` onto `x`, leaving the
already-set high bits alone, and returns 0xFFFF. -/
theorem C7_counterexample :
    Nat.testBit 3 0 = true ∧ sign_extend 3 1 = 0xFFFF ∧
    sign_extend 3 1 ≠ (3 + (65536 - 2 ^ 1)) % 65536 := by
  refine ⟨by decide, by decide, by decide⟩

/-- C7 (amended): the sign-extension law holds for every `x` that is
an `n`-bit value (`x < 2^n`, which every call site guarantees by
masking): if bit `n-1` of `x` is 0 then `signExtend(x,n) = x`, and if
it is 1 then `signExtend(x,n) = x - 2^n` with 16-bit wraparound. -/
theorem C7_sign_extend_amended :
    ∀ n, 1 ≤ n → n ≤ 16 → ∀ x, x < 2 ^ n →
      (Nat.testBit x (n - 1) = false → sign_extend x n = x) ∧
      (Nat.testBit x (n - 1) = true → sign_extend x n = (x + (65536 - 2 ^ n)) % 65536) := by
  intro n _ hn16 x hx
  constructor
  · intro hbit
    unfold sign_extend
    rw [if_neg]
    intro hguard
    rw [sign_extend_guard_iff.mp hguard] at hbit
    exact Bool.noConfusion hbit
  · intro hbit
    unfold sign_extend
    rw [if_pos (sign_extend_guard_iff.mpr hbit)]
    rw [lor_shiftLeft_eq_add 0xFFFF hx, Nat.shiftLeft_eq]
    have hpow1 : 1 ≤ 2 ^ n := Nat.one_le_two_pow
    have hpow16 : 2 ^ n ≤ 65536 := by
      calc 2 ^ n ≤ 2 ^ 16 := Nat.pow_le_pow_right (by decide) hn16
      _ = 65536 := by norm_num
    obtain ⟨d, hd⟩ := Nat.le.dest hpow16
    obtain ⟨e, he⟩ := Nat.le.dest hpow1
    have hsub : 65536 - 2 ^ n = d := by omega
    have hkey : 65535 * 2 ^ n = e * 65536 + d := by omega
    calc (65535 * 2 ^ n + x) % 65536
        = (e * 65536 + d + x) % 65536 := by rw [hkey]
      _ = (d + x + e * 65536) % 65536 := by
          rw [Nat.add_assoc, Nat.add_comm (e * 65536)]
      _ = (d + x) % 65536 := by rw [Nat.add_mul_mod_self_right]
      _ = (x + (65536 - 2 ^ n)) % 65536 := by rw [hsub, Nat.add_comm]

/-- C7 witness: instantiating the amended law at `n = 5` with
`x = 0x1F` (negative case) and `x = 5` (positive case). -/
theorem C7_witness :
    sign_extend 0x1F 5 = (0x1F + (65536 - 2 ^ 5)) % 65536 ∧ sign_extend 5 5 = 5 :=
  ⟨(C7_sign_extend_amended 5 (by decide) (by decide) 0x1F (by decide)).2 (by decide),
   (C7_sign_extend_amended 5 (by decide) (by decide) 5 (by decide)).1 (by decide)⟩

/-! ## C8: `update_flags` -/

theorem testBit15_iff {v : Nat} (h : v < 65536) :
    Nat.testBit v 15 = true ↔ v >>> 15 ≠ 0 := by
  rw [Nat.testBit_to_div_mod, decide_eq_true_eq, ← Nat.shiftRight_eq_div_pow]
  have h2 : v >>> 15 < 2 := by
    rw [Nat.shiftRight_eq_div_pow]
    exact Nat.div_lt_of_lt_mul (Nat.lt_of_lt_of_le h (by norm_num))
  rw [Nat.mod_eq_of_lt h2]
  cases hv : v >>> 15 with
  | zero => simp
  | succ m =>
    rw [hv] at h2
    rw [Nat.lt_one_iff.mp (Nat.succ_lt_succ_iff.mp h2)]
    simp

/-- C8: for a 16-bit register value `v`, `update_flags` leaves COND
equal to `FL_ZRO` if `v = 0`, `FL_NEG` if bit 15 of `v` is set, and
`FL_POS` otherwise — and in every case COND is exactly one of the
three flag values. -/
theorem C8_update_flags_spec :
    ∀ (st : Machine) (r : Nat), st.reg r < 65536 →
      (update_flags st r).reg R_COND =
        (if st.reg r = 0 then FL_ZRO
         else if Nat.testBit (st.reg r) 15 then FL_NEG else FL_POS) ∧
      ((update_flags st r).reg R_COND = FL_POS ∨ (update_flags st r).reg R_COND = FL_ZRO ∨
        (update_flags st r).reg R_COND = FL_NEG) := by
  intro st r h
  refine ⟨?_, update_flags_cond_cases st r⟩
  unfold update_flags
  by_cases h0 : st.reg r = 0
  · simp [h0, setReg, R_COND, FL_ZRO]
  · rw [if_neg h0, if_neg h0]
    by_cases h15 : st.reg r >>> 15 ≠ 0
    · rw [if_pos h15, if_pos ((testBit15_iff h).mpr h15)]
      simp [setReg, R_COND, FL_NEG]
    · rw [if_neg h15, if_neg (fun hb => h15 ((testBit15_iff h).mp hb))]
      simp [setReg, R_COND, FL_POS]

/-- C8 witness: `update_flags` on a concrete state whose register 0
holds 0. -/
theorem C8_witness :
    (update_flags exState 0).reg R_COND =
      (if exState.reg 0 = 0 then FL_ZRO
       else if Nat.testBit (exState.reg 0) 15 then FL_NEG else FL_POS) ∧
    ((update_flags exState 0).reg R_COND = FL_POS ∨
      (update_flags exState 0).reg R_COND = FL_ZRO ∨
      (update_flags exState 0).reg R_COND = FL_NEG) :=
  C8_update_flags_spec exState 0 (by decide)

/-! ## C4: TRAP with an unknown vector -/

/-- C4 counterexample: the claim says a TRAP with a vector outside
`{0x20..0x25}` leaves every register exactly as it was.  But
`reg[R_R7] = reg[R_PC]` runs before the vector dispatch: executing
`0xF000` (vector 0x00) from a state with PC = 0x1234 and R7 = 0 sets
R7 to 0x1234. -/
theorem C4_counterexample :
    execInstr exState 0xF000 = Outcome.ok (setReg exState R_R7 0x1234) ∧
    (setReg exState R_R7 0x1234).reg R_R7 = 0x1234 ∧
    exState.reg R_R7 = 0 ∧ (0x1234 : Nat) ≠ 0 :=
  ⟨rfl, by decide, by decide, by decide⟩

/-- C4 (amended): a TRAP whose 8-bit vector is outside the six defined
values falls through the vector `switch` with no handler: the only
observable effect of the instruction body is the unconditional
`R7 := PC` that every TRAP performs; memory, all other registers, the
output, and the running status are unchanged, and execution continues
(`Outcome.ok`). -/
theorem C4_unknown_trap_amended :
    ∀ (st : Machine) (instr : Nat), instr >>> 12 = OP_TRAP →
      instr &&& 0xFF ≠ TRAP_GETC → instr &&& 0xFF ≠ TRAP_OUT →
      instr &&& 0xFF ≠ TRAP_PUTS → instr &&& 0xFF ≠ TRAP_IN →
      instr &&& 0xFF ≠ TRAP_PUTSP → instr &&& 0xFF ≠ TRAP_HALT →
      execInstr st instr = Outcome.ok (setReg st R_R7 (st.reg R_PC)) ∧
      (∀ r, r ≠ R_R7 → (setReg st R_R7 (st.reg R_PC)).reg r = st.reg r) ∧
      (setReg st R_R7 (st.reg R_PC)).memory = st.memory ∧
      (setReg st R_R7 (st.reg R_PC)).running = st.running ∧
      (setReg st R_R7 (st.reg R_PC)).output = st.output := by
  intro st instr hop h1 h2 h3 h4 h5 h6
  refine ⟨?_, fun r hr => setReg_reg_of_ne st _ hr, rfl, rfl, rfl⟩
  rw [execInstr_eq_trap st instr hop]
  exact execTRAP_eq_unknown st instr h1 h2 h3 h4 h5 h6

/-- C4 witness: the amended statement at the concrete state and
instruction of the counterexample. -/
theorem C4_witness :
    execInstr exState 0xF000 = Outcome.ok (setReg exState R_R7 (exState.reg R_PC)) :=
  (C4_unknown_trap_amended exState 0xF000 (by decide) (by decide) (by decide) (by decide)
    (by decide) (by decide) (by decide)).1

/-! ## Fetch decomposition -/

/-- When the PC is in bounds and is not the keyboard status address,
one loop iteration is exactly: increment PC, then decode/execute the
word stored at the old PC. -/
theorem step_eq_of_pc (st : Machine) (h1 : st.reg R_PC ≠ MR_KBSR)
    (h2 : st.reg R_PC < MEMORY_LEN) :
    step st = execInstr (setReg st R_PC (st.reg R_PC + 1)) (st.memory (st.reg R_PC)) := by
  have h16 : st.reg R_PC % 65536 = st.reg R_PC := by
    apply Nat.mod_eq_of_lt
    have : MEMORY_LEN = 65535 := rfl
    omega
  simp only [step, mem_read, h16]
  rw [if_neg h1, if_pos h2]
  rfl

/-! ## C5: illegal opcodes -/

/-- C5 counterexample: the claim says an illegal opcode aborts with no
mutation of memory.  But the fetch itself goes through `mem_read`:
fetching from PC = 0xFE00 with a byte pending polls the keyboard,
setting the status word to 0x8000 — whose opcode field is `1000`
(RTI) — so the cycle aborts *and* memory has changed at 0xFE00 and
0xFE02. -/
theorem C5_counterexample :
    outcomeCase (step kbFetchState) = 1 ∧
    outcomeMemAt (step kbFetchState) MR_KBDR = 0x41 ∧
    kbFetchState.memory MR_KBDR = 0 ∧
    outcomeMemAt (step kbFetchState) MR_KBSR = 0x8000 ∧
    kbFetchState.memory MR_KBSR = 0 :=
  ⟨rfl, rfl, rfl, rfl, rfl⟩

/-- C5 (amended): from any state whose PC is in bounds and is not the
keyboard status address, fetching a word whose opcode field is `1000`
(RTI) or `1101` (reserved) calls `abort()`: the outcome is fatal —
never a no-op, never recovered — and the aborting state differs from
the pre-fetch state only by the PC increment of fetch (memory, all
registers except PC, input, output and running status unchanged). -/
theorem C5_illegal_opcode_amended :
    ∀ st : Machine, st.reg R_PC ≠ MR_KBSR → st.reg R_PC < MEMORY_LEN →
      (st.memory (st.reg R_PC) >>> 12 = OP_RTI ∨ st.memory (st.reg R_PC) >>> 12 = OP_RES) →
      step st = Outcome.abort (setReg st R_PC (st.reg R_PC + 1)) := by
  intro st hk hlt hop
  rw [step_eq_of_pc st hk hlt]
  exact execInstr_eq_abort_unassigned _ _ hop

/-- C5 witness: a concrete state with PC = 0x3000 fetching the word
0x8000 (opcode `1000`). -/
theorem C5_witness :
    step illState = Outcome.abort (setReg illState R_PC (illState.reg R_PC + 1)) :=
  C5_illegal_opcode_amended illState (by decide) (by decide) (Or.inl (by decide))

/-! ## C9: the PC increment precedes the instruction body -/

/-- C9: the PC is incremented during fetch, so PC-relative operations
in the same cycle use the post-increment PC: from PC = 0x3000 with the
JSR-with-offset-5 word 0x4805 stored there, one step sets R7 to the
post-increment PC 0x3001 and PC to 0x3001 + 5. -/
theorem C9_jsr_uses_post_increment_pc :
    ∀ st : Machine, st.reg R_PC = 0x3000 → st.memory 0x3000 = 0x4805 →
      step st =
        Outcome.ok (setReg (setReg (setReg st R_PC (0x3000 + 1)) R_R7 0x3001)
          R_PC (0x3001 + 5)) ∧
      (setReg (setReg (setReg st R_PC (0x3000 + 1)) R_R7 0x3001)
          R_PC (0x3001 + 5)).reg R_R7 = 0x3001 ∧
      (setReg (setReg (setReg st R_PC (0x3000 + 1)) R_R7 0x3001)
          R_PC (0x3001 + 5)).reg R_PC = 0x3001 + 5 := by
  intro st h1 h2
  have hk : st.reg R_PC ≠ MR_KBSR := by rw [h1]; decide
  have hlt : st.reg R_PC < MEMORY_LEN := by rw [h1]; decide
  rw [step_eq_of_pc st hk hlt, h1, h2]
  exact ⟨rfl, rfl, rfl⟩

/-- C9 witness: the JSR scenario run on the concrete `jsrState`. -/
theorem C9_witness :
    step jsrState =
      Outcome.ok (setReg (setReg (setReg jsrState R_PC (0x3000 + 1)) R_R7 0x3001)
        R_PC (0x3001 + 5)) :=
  (C9_jsr_uses_post_increment_pc jsrState (by decide) (by decide)).1

/-! ## C10: instruction fetch goes through `mem_read` -/

/-- C10: fetch uses the same `mem_read` as data loads, so fetching
from PC = 0xFE00 performs the keyboard poll before the instruction is
decoded: the step is exactly decode/execute (`execInstr`) in the
polled state, whose status cell 0xFE00 has been overwritten (with
0x8000 when a byte is pending — the fetched word itself — or 0
otherwise), and whose data cell 0xFE02 received the pending byte. -/
theorem C10_fetch_polls_keyboard :
    ∀ st : Machine, st.reg R_PC = MR_KBSR →
      (st.input = [] →
        step st = execInstr { setReg st R_PC (MR_KBSR + 1) with
                              memory := memSet st.memory MR_KBSR 0 }
                    (memSet st.memory MR_KBSR 0 MR_KBSR) ∧
        memSet st.memory MR_KBSR 0 MR_KBSR = 0) ∧
      (∀ b rest, st.input = b :: rest →
        step st = execInstr { setReg st R_PC (MR_KBSR + 1) with
                              memory := memSet (memSet st.memory MR_KBSR (1 <<< 15)) MR_KBDR b,
                              input := rest }
                    0x8000 ∧
        memSet (memSet st.memory MR_KBSR (1 <<< 15)) MR_KBDR b MR_KBSR = 0x8000 ∧
        memSet (memSet st.memory MR_KBSR (1 <<< 15)) MR_KBDR b MR_KBDR = b % 65536) := by
  intro st h
  constructor
  · intro hin
    constructor
    · simp only [step, mem_read, h, MR_KBSR, MR_KBDR, MEMORY_LEN,
        setReg_memory_eq, setReg_input_eq, hin]
      rfl
    · rfl
  · intro b rest hin
    refine ⟨?_, rfl, rfl⟩
    simp only [step, mem_read, h, MR_KBSR, MR_KBDR, MEMORY_LEN,
      setReg_memory_eq, setReg_input_eq, hin]
    rfl

/-- C10 witness: the concrete `kbFetchState` (PC = 0xFE00, byte 0x41
pending). -/
theorem C10_witness :
    step kbFetchState =
      execInstr { setReg kbFetchState R_PC (MR_KBSR + 1) with
                  memory := memSet (memSet kbFetchState.memory MR_KBSR (1 <<< 15))
                    MR_KBDR 0x41,
                  input := ([] : List Nat) }
        0x8000 :=
  (((C10_fetch_polls_keyboard kbFetchState rfl).2) 0x41 [] rfl).1

/-! ## C3: the COND register along a run -/

theorem execADD_cond (st : Machine) (instr : Nat) :
    (execADD st instr).reg R_COND = FL_POS ∨ (execADD st instr).reg R_COND = FL_ZRO ∨
      (execADD st instr).reg R_COND = FL_NEG :=
  update_flags_cond_cases _ _

theorem execAND_cond (st : Machine) (instr : Nat) :
    (execAND st instr).reg R_COND = FL_POS ∨ (execAND st instr).reg R_COND = FL_ZRO ∨
      (execAND st instr).reg R_COND = FL_NEG :=
  update_flags_cond_cases _ _

theorem execNOT_cond (st : Machine) (instr : Nat) :
    (execNOT st instr).reg R_COND = FL_POS ∨ (execNOT st instr).reg R_COND = FL_ZRO ∨
      (execNOT st instr).reg R_COND = FL_NEG :=
  update_flags_cond_cases _ _

theorem execLEA_cond (st : Machine) (instr : Nat) :
    (execLEA st instr).reg R_COND = FL_POS ∨ (execLEA st instr).reg R_COND = FL_ZRO ∨
      (execLEA st instr).reg R_COND = FL_NEG :=
  update_flags_cond_cases _ _

theorem execBR_cond (st : Machine) (instr : Nat) :
    (execBR st instr).reg R_COND = st.reg R_COND := by
  simp only [execBR]
  split
  · exact setReg_reg_of_ne st _ (by decide)
  · rfl

theorem execJMP_cond (st : Machine) (instr : Nat) :
    (execJMP st instr).reg R_COND = st.reg R_COND :=
  setReg_reg_of_ne st _ (by decide)

theorem execJSR_cond (st : Machine) (instr : Nat) :
    (execJSR st instr).reg R_COND = st.reg R_COND := by
  simp only [execJSR]
  split <;> rw [setReg_reg_of_ne _ _ (by decide), setReg_reg_of_ne _ _ (by decide)]

theorem execLD_cond {st : Machine} {instr : Nat} {st' : Machine}
    (h : execLD st instr = Outcome.ok st') :
    st'.reg R_COND = FL_POS ∨ st'.reg R_COND = FL_ZRO ∨ st'.reg R_COND = FL_NEG := by
  simp only [execLD] at h
  split at h
  · exact Outcome.noConfusion h
  · injection h with h'
    subst h'
    exact update_flags_cond_cases _ _

theorem execLDI_cond {st : Machine} {instr : Nat} {st' : Machine}
    (h : execLDI st instr = Outcome.ok st') :
    st'.reg R_COND = FL_POS ∨ st'.reg R_COND = FL_ZRO ∨ st'.reg R_COND = FL_NEG := by
  simp only [execLDI] at h
  split at h
  · exact Outcome.noConfusion h
  · split at h
    · exact Outcome.noConfusion h
    · injection h with h'
      subst h'
      exact update_flags_cond_cases _ _

theorem execLDR_cond {st : Machine} {instr : Nat} {st' : Machine}
    (h : execLDR st instr = Outcome.ok st') :
    st'.reg R_COND = FL_POS ∨ st'.reg R_COND = FL_ZRO ∨ st'.reg R_COND = FL_NEG := by
  simp only [execLDR] at h
  split at h
  · exact Outcome.noConfusion h
  · injection h with h'
    subst h'
    exact update_flags_cond_cases _ _

theorem execST_cond {st : Machine} {instr : Nat} {st' : Machine}
    (h : execST st instr = Outcome.ok st') :
    st'.reg R_COND = st.reg R_COND := by
  simp only [execST] at h
  split at h
  · exact Outcome.noConfusion h
  · rename_i st1 heq
    injection h with h'
    subst h'
    rw [mem_write_reg_eq heq]

theorem execSTI_cond {st : Machine} {instr : Nat} {st' : Machine}
    (h : execSTI st instr = Outcome.ok st') :
    st'.reg R_COND = st.reg R_COND := by
  simp only [execSTI] at h
  split at h
  · exact Outcome.noConfusion h
  · rename_i p heq
    split at h
    · exact Outcome.noConfusion h
    · rename_i st2 heq2
      injection h with h'
      subst h'
      rw [mem_write_reg_eq heq2, congrFun (mem_read_reg_eq heq) R_COND]

theorem execSTR_cond {st : Machine} {instr : Nat} {st' : Machine}
    (h : execSTR st instr = Outcome.ok st') :
    st'.reg R_COND = st.reg R_COND := by
  simp only [execSTR] at h
  split at h
  · exact Outcome.noConfusion h
  · rename_i st1 heq
    injection h with h'
    subst h'
    rw [mem_write_reg_eq heq]

theorem execTRAP_cond {st : Machine} {instr : Nat} {st' : Machine}
    (h : execTRAP st instr = Outcome.ok st') :
    st'.reg R_COND = st.reg R_COND := by
  by_cases c1 : instr &&& 0xFF = TRAP_GETC
  · rw [execTRAP_eq_getc st instr c1] at h
    split at h <;>
      (injection h with h'
       subst h'
       rw [@setReg_reg_of_ne R_COND R_R0 _ _ (by decide)]
       exact @setReg_reg_of_ne R_COND R_R7 st (st.reg R_PC) (by decide))
  · by_cases c2 : instr &&& 0xFF = TRAP_OUT
    · rw [execTRAP_eq_out st instr c2] at h
      injection h with h'
      subst h'
      exact @setReg_reg_of_ne R_COND R_R7 st (st.reg R_PC) (by decide)
    · by_cases c3 : instr &&& 0xFF = TRAP_PUTS
      · rw [execTRAP_eq_puts st instr c3] at h
        split at h
        · exact Outcome.noConfusion h
        · injection h with h'
          subst h'
          exact @setReg_reg_of_ne R_COND R_R7 st (st.reg R_PC) (by decide)
      · by_cases c4 : instr &&& 0xFF = TRAP_IN
        · rw [execTRAP_eq_in st instr c4] at h
          split at h <;>
            (injection h with h'
             subst h'
             rw [@setReg_reg_of_ne R_COND R_R0 _ _ (by decide)]
             exact @setReg_reg_of_ne R_COND R_R7 st (st.reg R_PC) (by decide))
        · by_cases c5 : instr &&& 0xFF = TRAP_PUTSP
          · rw [execTRAP_eq_putsp st instr c5] at h
            split at h
            · exact Outcome.noConfusion h
            · injection h with h'
              subst h'
              exact @setReg_reg_of_ne R_COND R_R7 st (st.reg R_PC) (by decide)
          · by_cases c6 : instr &&& 0xFF = TRAP_HALT
            · rw [execTRAP_eq_halt st instr c6] at h
              injection h with h'
              subst h'
              exact @setReg_reg_of_ne R_COND R_R7 st (st.reg R_PC) (by decide)
            · rw [execTRAP_eq_unknown st instr c1 c2 c3 c4 c5 c6] at h
              injection h with h'
              subst h'
              exact @setReg_reg_of_ne R_COND R_R7 st (st.reg R_PC) (by decide)

theorem execInstr_cond {st : Machine} {instr : Nat} {st' : Machine}
    (h : execInstr st instr = Outcome.ok st') :
    st'.reg R_COND = st.reg R_COND ∨
      (st'.reg R_COND = FL_POS ∨ st'.reg R_COND = FL_ZRO ∨ st'.reg R_COND = FL_NEG) := by
  by_cases c1 : instr >>> 12 = OP_ADD
  · rw [execInstr_eq_add st instr c1] at h
    injection h with h'; subst h'; exact Or.inr (execADD_cond st instr)
  · by_cases c2 : instr >>> 12 = OP_AND
    · rw [execInstr_eq_and st instr c2] at h
      injection h with h'; subst h'; exact Or.inr (execAND_cond st instr)
    · by_cases c3 : instr >>> 12 = OP_NOT
      · rw [execInstr_eq_not st instr c3] at h
        injection h with h'; subst h'; exact Or.inr (execNOT_cond st instr)
      · by_cases c4 : instr >>> 12 = OP_BR
        · rw [execInstr_eq_br st instr c4] at h
          injection h with h'; subst h'; exact Or.inl (execBR_cond st instr)
        · by_cases c5 : instr >>> 12 = OP_JMP
          · rw [execInstr_eq_jmp st instr c5] at h
            injection h with h'; subst h'; exact Or.inl (execJMP_cond st instr)
          · by_cases c6 : instr >>> 12 = OP_JSR
            · rw [execInstr_eq_jsr st instr c6] at h
              injection h with h'; subst h'; exact Or.inl (execJSR_cond st instr)
            · by_cases c7 : instr >>> 12 = OP_LD
              · rw [execInstr_eq_ld st instr c7] at h
                exact Or.inr (execLD_cond h)
              · by_cases c8 : instr >>> 12 = OP_LDI
                · rw [execInstr_eq_ldi st instr c8] at h
                  exact Or.inr (execLDI_cond h)
                · by_cases c9 : instr >>> 12 = OP_LDR
                  · rw [execInstr_eq_ldr st instr c9] at h
                    exact Or.inr (execLDR_cond h)
                  · by_cases c10 : instr >>> 12 = OP_LEA
                    · rw [execInstr_eq_lea st instr c10] at h
                      injection h with h'; subst h'; exact Or.inr (execLEA_cond st instr)
                    · by_cases c11 : instr >>> 12 = OP_ST
                      · rw [execInstr_eq_st st instr c11] at h
                        exact Or.inl (execST_cond h)
                      · by_cases c12 : instr >>> 12 = OP_STI
                        · rw [execInstr_eq_sti st instr c12] at h
                          exact Or.inl (execSTI_cond h)
                        · by_cases c13 : instr >>> 12 = OP_STR
                          · rw [execInstr_eq_str st instr c13] at h
                            exact Or.inl (execSTR_cond h)
                          · by_cases c14 : instr >>> 12 = OP_TRAP
                            · rw [execInstr_eq_trap st instr c14] at h
                              exact Or.inl (execTRAP_cond h)
                            · rw [execInstr_eq_abort_of_ne st instr c1 c2 c3 c4 c5 c6 c7 c8 c9 c10 c11 c12 c13 c14] at h
                              exact Outcome.noConfusion h

theorem step_cond {st st' : Machine} (h : step st = Outcome.ok st') :
    st'.reg R_COND = st.reg R_COND ∨
      (st'.reg R_COND = FL_POS ∨ st'.reg R_COND = FL_ZRO ∨ st'.reg R_COND = FL_NEG) := by
  simp only [step] at h
  split at h
  · exact Outcome.noConfusion h
  · rename_i st2 instr heq
    rcases execInstr_cond h with h1 | h1
    · left
      rw [h1, congrFun (mem_read_reg_eq heq) R_COND, setReg_reg_of_ne st _ (by decide)]
    · exact Or.inr h1

theorem reachable_cond {st0 st : Machine} (h : Reachable st0 st) :
    st.reg R_COND = st0.reg R_COND ∨
      (st.reg R_COND = FL_POS ∨ st.reg R_COND = FL_ZRO ∨ st.reg R_COND = FL_NEG) := by
  induction h with
  | refl => exact Or.inl rfl
  | next _ _ hstep ih =>
      rcases step_cond hstep with h1 | h1
      · rw [h1]; exact ih
      · exact Or.inr h1

/-- C3 counterexample: the claim includes the moment the execute loop
begins, but the register file is zero-initialised and COND is never
given an initial flag: at loop entry COND = 0, which is none of
POS, ZERO, NEG. -/
theorem C3_counterexample :
    Reachable (initMachine zeroMem []) (initMachine zeroMem []) ∧
    (initMachine zeroMem []).reg R_COND = 0 ∧
    (initMachine zeroMem []).reg R_COND ≠ FL_POS ∧
    (initMachine zeroMem []).reg R_COND ≠ FL_ZRO ∧
    (initMachine zeroMem []).reg R_COND ≠ FL_NEG :=
  ⟨Reachable.refl, rfl, by decide, by decide, by decide⟩

/-- C3 (amended): at loop entry COND is 0 (no flag); in every
reachable state COND is one of {0, POS, ZERO, NEG}; and once COND
holds one of the three proper flags — as it does after any
flag-updating instruction — every further step keeps it exactly one
of the three. -/
theorem C3_cond_invariant_amended :
    (∀ (mem : Nat → Nat) (inp : List Nat) (st : Machine),
        Reachable (initMachine mem inp) st →
        st.reg R_COND = 0 ∨ st.reg R_COND = FL_POS ∨ st.reg R_COND = FL_ZRO ∨
          st.reg R_COND = FL_NEG) ∧
    (∀ st st' : Machine, step st = Outcome.ok st' →
        (st.reg R_COND = FL_POS ∨ st.reg R_COND = FL_ZRO ∨ st.reg R_COND = FL_NEG) →
        (st'.reg R_COND = FL_POS ∨ st'.reg R_COND = FL_ZRO ∨ st'.reg R_COND = FL_NEG)) := by
  constructor
  · intro mem inp st h
    rcases reachable_cond h with h1 | h1
    · exact Or.inl h1
    · exact Or.inr h1
  · intro st st' hstep hcond
    rcases step_cond hstep with h1 | h1
    · rw [h1]; exact hcond
    · exact h1

/-- C3 witness: the invariant instantiated at the initial state
itself, and flag preservation across one concrete step (a BR that
does not branch) from a state whose COND is `FL_ZRO`. -/
theorem C3_witness :
    ((initMachine zeroMem []).reg R_COND = 0 ∨
      (initMachine zeroMem []).reg R_COND = FL_POS ∨
      (initMachine zeroMem []).reg R_COND = FL_ZRO ∨
      (initMachine zeroMem []).reg R_COND = FL_NEG) ∧
    ((setReg condState R_PC 0x3001).reg R_COND = FL_POS ∨
      (setReg condState R_PC 0x3001).reg R_COND = FL_ZRO ∨
      (setReg condState R_PC 0x3001).reg R_COND = FL_NEG) :=
  ⟨C3_cond_invariant_amended.1 zeroMem [] _ Reachable.refl,
   C3_cond_invariant_amended.2 condState (setReg condState R_PC 0x3001) rfl
     (Or.inr (Or.inl rfl))⟩

end LC3
